import Mathlib

/-!
Verification of the KidsEnglishGuide app core
(`kids_english_helper/streamlit_app.py`): the rule-based weekly planner,
the Azure AI Search client wrapper, the Azure OpenAI chat wrapper with the
display-side coercion of its JSON result, and the JSON export of a weekly
plan. Python JSON values are modelled by the inductive `Json`; the single
outbound HTTP interaction of each client is modelled by an explicit
`HttpResponse` argument (the outcome of the `requests.post` try-block:
a parsed 2xx JSON body, or an exception).
-/

/-- A JSON value, as produced by `r.json()` / `json.loads` in the source.
Numbers are modelled as integers (all numeric fields in the app are ints). -/
inductive Json where
  | null : Json
  | bool (b : Bool) : Json
  | num (n : Int) : Json
  | str (s : String) : Json
  | arr (xs : List Json) : Json
  | obj (kvs : List (String × Json)) : Json

/-- Python truthiness of a JSON value (`None`, `False`, `0`, `""`, `[]`,
and the empty dict are falsy). -/
def Json.truthy : Json → Bool
  | .null => false
  | .bool b => b
  | .num n => n != 0
  | .str s => !s.isEmpty
  | .arr xs => !xs.isEmpty
  | .obj kvs => !kvs.isEmpty

/-- `d.get(key, default)` on a JSON object given as a key-value list. -/
def jsonGetD (kvs : List (String × Json)) (key : String) (default : Json) : Json :=
  (List.lookup key kvs).getD default

/-! ## Rule-based weekly planner (`rule_based_plan`, lines 105-128) -/

/-- One entry of the `activities` list built by `rule_based_plan`. -/
structure Activity where
  day : String
  type : String
  item : String
  focus_phrases : List String
  missions : List String
deriving DecidableEq

/-- The dict returned by `rule_based_plan`. -/
structure WeeklyPlan where
  weekly_goals : String
  activities : List Activity
  time_per_day : Nat
deriving DecidableEq

/-- The `days` list of `rule_based_plan` (line 115). -/
def DAYS : List String := ["Mon", "Tue", "Wed", "Thu", "Fri", "Sat", "Sun"]

/-- The activity-type list of `rule_based_plan` (line 119):
listening, speaking, reading, writing. -/
def TYPES : List String := ["듣기", "말하기", "읽기", "쓰기"]

/-- The `focus_bank` dict of `rule_based_plan` (lines 106-111), as an
ordered key-value list. -/
def focus_bank : List (String × List String) :=
  [ ("A0", ["Hello!", "My name is ...", "I like ..."])
  , ("A1", ["Can I ...?", "I want ...", "It\x27s my turn."])
  , ("A2", ["Yesterday I ...", "Because ...", "Let\x27s try ..."])
  , ("B1", ["In my opinion ...", "I prefer ...", "Be careful!"]) ]

/-- The fixed `missions` list attached to every activity (line 122). -/
def MISSIONS : List String := ["표현 스티커 찾기", "섀도잉 2회", "가정 대화 1회 사용"]

/-- `rule_based_plan(age, level, character, sessions_per_week,
minutes_per_session)` (lines 105-128). `age` is accepted and unused, as in
the source. `focus_bank.get(level, focus_bank["A1"])` is the lookup with
A1 fallback; the loop over `range(sessions_per_week)` picks
`days[i % 7]` and the type list at `i % 4` (both always in bounds);
`weekly_goals` is the f-string of line 125. -/
def rule_based_plan (age : Nat) (level : String) (character : String)
    (sessions_per_week : Nat) (minutes_per_session : Nat) : WeeklyPlan :=
  let phrases := (List.lookup level focus_bank).getD
    ((List.lookup "A1" focus_bank).getD [])
  let activities := (List.range sessions_per_week).map fun i =>
    { day := DAYS.getD (i % 7) ""
    , type := TYPES.getD (i % 4) ""
    , item := character ++ " clip/read"
    , focus_phrases := phrases
    , missions := MISSIONS : Activity }
  { weekly_goals := toString sessions_per_week ++ "회 × "
      ++ toString minutes_per_session ++ "분 / 회"
  , activities := activities
  , time_per_day := minutes_per_session }

/-! ## Azure AI Search client (`azure_search`, lines 22-39) -/

/-- The three search secrets read at startup (lines 12-14). A value that
was not configured is the empty string (`get_secret` default). -/
structure SearchConfig where
  endpoint : String
  key : String
  index : String
deriving DecidableEq

/-- Outcome of the single `requests.post` + `raise_for_status` + `r.json()`
sequence inside a try-block: a parsed JSON body on a 2xx response, or an
exception (network error, non-2xx status, unparseable body). -/
inductive HttpResponse where
  | success (body : Json) : HttpResponse
  | failure (msg : String) : HttpResponse

/-- A user-visible signal emitted by `azure_search`: the `st.warning` of
line 25 (configuration missing) or the `st.error` of line 38
(call or parse failed). -/
inductive SearchSignal where
  | configMissing : SearchSignal
  | backendError (msg : String) : SearchSignal

/-- Everything observable about one `azure_search` invocation: the value
returned, the signals shown, and the JSON payloads posted to the backend
(one entry per outbound network call). -/
structure SearchOutcome where
  result : Json
  signals : List SearchSignal
  calls : List Json

/-- The request body of line 30. -/
def searchPayload (query : String) (top : Nat) : Json :=
  .obj [ ("search", .str query), ("top", .num top)
       , ("queryType", .str "simple") ]

/-- `azure_search(query, top)` (lines 22-39), with the startup
configuration and the HTTP outcome passed explicitly. An incomplete
configuration (any of the three values empty, hence falsy) warns and
returns `[]` before any network call. Otherwise one call is made; on
success `data.get("value", [])` is returned (an `AttributeError` on a
non-dict body is caught by the same except-block), and on failure the
error is shown and `[]` returned. -/
def azure_search (cfg : SearchConfig) (query : String) (top : Nat)
    (resp : HttpResponse) : SearchOutcome :=
  if cfg.endpoint = "" ∨ cfg.key = "" ∨ cfg.index = "" then
    { result := .arr [], signals := [.configMissing], calls := [] }
  else
    match resp with
    | .success (.obj kvs) =>
        { result := jsonGetD kvs "value" (.arr [])
        , signals := []
        , calls := [searchPayload query top] }
    | .success _ =>
        { result := .arr []
        , signals := [.backendError "body is not an object"]
        , calls := [searchPayload query top] }
    | .failure msg =>
        { result := .arr []
        , signals := [.backendError msg]
        , calls := [searchPayload query top] }

/-! ## Snippet coercion (`build_rag_prompt`, lines 68-80) and the
result rendering of the Search tab (lines 178-189): both coerce a raw
backend match into the record shape the spec calls ContentRecord, with
`title` falling back to `id` and `phrases` and `content` defaulting to
empty. -/

/-- One entry of the `snippets` list of `build_rag_prompt` (lines 77-80). -/
structure Snippet where
  title : Json
  series : Json
  level : Json
  phrases : Json
  content : Json

/-- Python slicing `v[:600]`, defined on strings and lists; any other
operand raises `TypeError` in the source, modelled as `none`. -/
def pySlice600 : Json → Option Json
  | .str s => some (.str (s.take 600))
  | .arr xs => some (.arr (xs.take 600))
  | _ => none

/-- Python `a or b`: `a` when truthy, otherwise `b`. -/
def pyOr (a b : Json) : Json := if a.truthy then a else b

/-- The per-document coercion of `build_rag_prompt` (lines 71-80):
`title = d.get("title") or d.get("id", "")`,
`series = d.get("series", "")`, `level = d.get("level", "")`,
`content = (d.get("content", "") or "")[:600]`,
`phrases = d.get("phrases", [])`. A non-dict document (whose `.get`
raises) or a non-sliceable content value is `none`. -/
def coerceDoc (d : Json) : Option Snippet :=
  match d with
  | .obj kvs =>
      (pySlice600 (pyOr (jsonGetD kvs "content" (.str "")) (.str ""))).map
        fun content =>
          { title := pyOr (jsonGetD kvs "title" .null) (jsonGetD kvs "id" (.str ""))
          , series := jsonGetD kvs "series" (.str "")
          , level := jsonGetD kvs "level" (.str "")
          , phrases := jsonGetD kvs "phrases" (.arr [])
          , content := content }
  | _ => none

/-- Apply a fallible function to every element in order, failing if any
application fails. -/
def traverseOption {α β : Type} (f : α → Option β) : List α → Option (List β)
  | [] => some []
  | x :: xs =>
      match f x, traverseOption f xs with
      | some y, some ys => some (y :: ys)
      | _, _ => none

/-- The `snippets` list built by the loop of lines 70-80, in order. -/
def ragSnippets (docs : List Json) : Option (List Snippet) :=
  traverseOption coerceDoc docs

/-! ## Azure OpenAI chat client (`aoai_chat`, lines 43-65) and the
RAG display coercion (lines 242-250) -/

/-- The three optional generation secrets (lines 17-19). -/
structure AoaiConfig where
  endpoint : String
  key : String
  deployment : String
deriving DecidableEq

/-- A user-visible signal emitted by `aoai_chat`: the `st.warning` of
line 45 or the `st.error` of line 64. -/
inductive ChatSignal where
  | configMissing : ChatSignal
  | callFailed (msg : String) : ChatSignal

/-- Everything observable about one `aoai_chat` invocation. -/
structure ChatOutcome where
  result : Option Json
  signals : List ChatSignal
  calls : Nat

/-- `data["choices"][0]["message"]["content"]` (line 61); any missing key,
empty list or non-string content raises in the source and is `none` here
(the exception is caught by the surrounding except-block). -/
def extractContent (body : Json) : Option String :=
  match body with
  | .obj kvs =>
      match List.lookup "choices" kvs with
      | some (.arr (.obj ckvs :: _)) =>
          match List.lookup "message" ckvs with
          | some (.obj mkvs) =>
              match List.lookup "content" mkvs with
              | some (.str s) => some s
              | _ => none
          | _ => none
      | _ => none
  | _ => none

/-- `aoai_chat(messages, ...)` (lines 43-65) with the configuration, the
HTTP outcome and the stdlib JSON decoder (`json.loads`, `none` on a
decode error) passed explicitly. Incomplete configuration warns and
returns `None` before any network call; any exception in the try-block
is shown as an error and yields `None`. -/
def aoai_chat (cfg : AoaiConfig) (messages : List Json)
    (resp : HttpResponse) (loads : String → Option Json) : ChatOutcome :=
  if cfg.endpoint = "" ∨ cfg.key = "" ∨ cfg.deployment = "" then
    { result := none, signals := [.configMissing], calls := 0 }
  else
    match resp with
    | .failure msg => { result := none, signals := [.callFailed msg], calls := 1 }
    | .success body =>
        match extractContent body with
        | none =>
            { result := none, signals := [.callFailed "missing field"], calls := 1 }
        | some content =>
            match loads content with
            | none =>
                { result := none, signals := [.callFailed "bad json"], calls := 1 }
            | some rag => { result := some rag, signals := [], calls := 1 }

/-- The four fields the RAG display reads out of the parsed object. -/
structure EnrichmentResult where
  summary : Json
  focus_phrases : Json
  missions : Json
  parent_tips : Json

/-- The display-side coercion of the parsed chat result (lines 242-250):
`rag.get("summary", "")`, `rag.get("focus_phrases", [])`,
`rag.get("missions", [])`, `rag.get("parent_tips", [])` on the JSON
object `rag`. -/
def exposeEnrichment (kvs : List (String × Json)) : EnrichmentResult :=
  { summary := jsonGetD kvs "summary" (.str "")
  , focus_phrases := jsonGetD kvs "focus_phrases" (.arr [])
  , missions := jsonGetD kvs "missions" (.arr [])
  , parent_tips := jsonGetD kvs "parent_tips" (.arr []) }

/-! ## JSON export of a weekly plan (`st.download_button`, lines 277-280)

`json.dumps(plan, ensure_ascii=False, indent=2)` serialises the plan dict
key for key, in insertion order; parsing the exported document back with
`json.loads` recovers the same dict. The textual encode/decode pair is the
Python standard library; the repository-level content of the round trip is
the JSON value a plan maps to and the plan a JSON value maps back to,
modelled here by `WeeklyPlan.toJson` and `WeeklyPlan.fromJson`. -/

/-- The JSON value of one activity dict (lines 117-123), keys in
insertion order. -/
def Activity.toJson (a : Activity) : Json :=
  .obj [ ("day", .str a.day)
       , ("type", .str a.type)
       , ("item", .str a.item)
       , ("focus_phrases", .arr (a.focus_phrases.map Json.str))
       , ("missions", .arr (a.missions.map Json.str)) ]

/-- The JSON value of the plan dict (lines 124-128), keys in insertion
order. -/
def WeeklyPlan.toJson (p : WeeklyPlan) : Json :=
  .obj [ ("weekly_goals", .str p.weekly_goals)
       , ("activities", .arr (p.activities.map Activity.toJson))
       , ("time_per_day", .num p.time_per_day) ]

/-- Read a JSON string back as a string. -/
def Json.asStr : Json → Option String
  | .str s => some s
  | _ => none

/-- Read a JSON array of strings back as a list of strings. -/
def Json.asStrList : Json → Option (List String)
  | .arr xs => traverseOption Json.asStr xs
  | _ => none

/-- Read a non-negative JSON number back as a natural number. -/
def Json.asNat : Json → Option Nat
  | .num n => if 0 ≤ n then some n.toNat else none
  | _ => none

/-- Parse an activity back out of its exported JSON object. -/
def Activity.fromJson (j : Json) : Option Activity :=
  match j with
  | .obj kvs => do
      let day ← (List.lookup "day" kvs).bind Json.asStr
      let ty ← (List.lookup "type" kvs).bind Json.asStr
      let item ← (List.lookup "item" kvs).bind Json.asStr
      let phrases ← (List.lookup "focus_phrases" kvs).bind Json.asStrList
      let missions ← (List.lookup "missions" kvs).bind Json.asStrList
      pure { day := day, type := ty, item := item
           , focus_phrases := phrases, missions := missions }
  | _ => none

/-- Parse a weekly plan back out of its exported JSON object. -/
def WeeklyPlan.fromJson (j : Json) : Option WeeklyPlan :=
  match j with
  | .obj kvs => do
      let goals ← (List.lookup "weekly_goals" kvs).bind Json.asStr
      let acts ← match List.lookup "activities" kvs with
        | some (.arr xs) => traverseOption Activity.fromJson xs
        | _ => none
      let tpd ← (List.lookup "time_per_day" kvs).bind Json.asNat
      pure { weekly_goals := goals, activities := acts, time_per_day := tpd }
  | _ => none

/-! ## Claims about the search client -/

/-- Claim C8: with any of the three search configuration values absent,
`azure_search` returns the empty list, shows exactly the
configuration-missing warning, and makes no network call (hence no retry);
being a total function of its inputs, it raises no unrecovered fault. -/
theorem search_incomplete_config_short_circuits (cfg : SearchConfig)
    (query : String) (top : Nat) (resp : HttpResponse)
    (h : cfg.endpoint = "" ∨ cfg.key = "" ∨ cfg.index = "") :
    azure_search cfg query top resp
      = { result := .arr [], signals := [.configMissing], calls := [] } := by
  simp [azure_search, h]

/-- Witness for C8: empty endpoint, backend would have failed, yet the
outcome is the silent-warning empty result with zero calls. -/
theorem search_incomplete_config_short_circuits_witness :
    ((SearchConfig.mk "" "k" "i").endpoint = ""
        ∨ (SearchConfig.mk "" "k" "i").key = ""
        ∨ (SearchConfig.mk "" "k" "i").index = "") ∧
    azure_search (SearchConfig.mk "" "k" "i") "Bluey" 5 (.failure "down")
      = { result := .arr [], signals := [.configMissing], calls := [] } :=
  ⟨Or.inl rfl,
    search_incomplete_config_short_circuits (SearchConfig.mk "" "k" "i")
      "Bluey" 5 (.failure "down") (Or.inl rfl)⟩

/-- Claim C10: a successful response whose JSON object body has no
`value` key makes `azure_search` return the empty list silently: no
signal at all, one network call. -/
theorem search_missing_value_key_is_silent (cfg : SearchConfig)
    (query : String) (top : Nat) (kvs : List (String × Json))
    (he : cfg.endpoint ≠ "") (hk : cfg.key ≠ "") (hi : cfg.index ≠ "")
    (hv : List.lookup "value" kvs = none) :
    azure_search cfg query top (.success (.obj kvs))
      = { result := .arr [], signals := []
        , calls := [searchPayload query top] } := by
  simp [azure_search, he, hk, hi, jsonGetD, hv]

/-- Witness for C10: a body carrying only a count field. -/
theorem search_missing_value_key_is_silent_witness :
    (SearchConfig.mk "e" "k" "i").endpoint ≠ "" ∧
    List.lookup "value" [("odata.count", Json.num 0)] = none ∧
    azure_search (SearchConfig.mk "e" "k" "i") "Bluey" 5
        (.success (.obj [("odata.count", Json.num 0)]))
      = { result := .arr [], signals := []
        , calls := [searchPayload "Bluey" 5] } :=
  ⟨by decide, rfl,
    search_missing_value_key_is_silent (SearchConfig.mk "e" "k" "i")
      "Bluey" 5 [("odata.count", Json.num 0)]
      (by decide) (by decide) (by decide) rfl⟩

/-- Claim C2: on a successful backend response `azure_search` returns the
backend match list itself, and the coercion the app applies to each
match (in `build_rag_prompt` and the result rendering) gives a record
whose title falls back to the match id when `title` is missing, and whose
phrases and content default to empty when missing. -/
theorem search_matches_coerced (cfg : SearchConfig) (query : String)
    (top : Nat) (kvs₀ : List (String × Json)) (docs : List Json)
    (he : cfg.endpoint ≠ "") (hk : cfg.key ≠ "") (hi : cfg.index ≠ "")
    (hv : List.lookup "value" kvs₀ = some (.arr docs)) :
    (azure_search cfg query top (.success (.obj kvs₀))).result = .arr docs ∧
    ∀ d ∈ docs, ∀ kvs, d = .obj kvs → ∀ s, coerceDoc d = some s →
      (List.lookup "title" kvs = none → s.title = jsonGetD kvs "id" (.str "")) ∧
      (List.lookup "phrases" kvs = none → s.phrases = .arr []) ∧
      (List.lookup "content" kvs = none → s.content = .str "") := by
  refine ⟨by simp [azure_search, he, hk, hi, jsonGetD, hv], ?_⟩
  rintro d - kvs rfl s hs
  refine ⟨fun ht => ?_, fun hp => ?_, fun hc => ?_⟩
  · rcases h600 : pySlice600 (pyOr (jsonGetD kvs "content" (.str "")) (.str ""))
      with _ | c
    · simp only [coerceDoc, h600] at hs
      exact absurd hs (by simp)
    · simp only [coerceDoc, h600, Option.map_some', Option.some.injEq] at hs
      subst hs
      simp [pyOr, jsonGetD, ht, Json.truthy]
  · rcases h600 : pySlice600 (pyOr (jsonGetD kvs "content" (.str "")) (.str ""))
      with _ | c
    · simp only [coerceDoc, h600] at hs
      exact absurd hs (by simp)
    · simp only [coerceDoc, h600, Option.map_some', Option.some.injEq] at hs
      subst hs
      simp [jsonGetD, hp]
  · have hX : pyOr (jsonGetD kvs "content" (.str "")) (.str "") = .str "" := by
      simp [jsonGetD, hc, pyOr, Json.truthy]
    have h600 : pySlice600 (.str "") = some (.str "") := by
      simp [pySlice600, String.take_eq]
    simp only [coerceDoc, hX, h600, Option.map_some', Option.some.injEq] at hs
    subst hs
    rfl

/-- Witness for C2: one match with only an `id`; the coerced record takes
`"doc1"` as title and empty phrases and content. -/
theorem search_matches_coerced_witness :
    (azure_search (SearchConfig.mk "e" "k" "i") "Bluey" 5
        (.success (.obj [("value", Json.arr [Json.obj [("id", Json.str "doc1")]])]))).result
      = Json.arr [Json.obj [("id", Json.str "doc1")]] ∧
    (Snippet.mk (.str "doc1") (.str "") (.str "") (.arr []) (.str "")).title
        = jsonGetD [("id", Json.str "doc1")] "id" (.str "") ∧
    (Snippet.mk (.str "doc1") (.str "") (.str "") (.arr []) (.str "")).phrases
        = Json.arr [] ∧
    (Snippet.mk (.str "doc1") (.str "") (.str "") (.arr []) (.str "")).content
        = Json.str "" :=
  have happ := search_matches_coerced (SearchConfig.mk "e" "k" "i") "Bluey" 5
    [("value", Json.arr [Json.obj [("id", Json.str "doc1")]])]
    [Json.obj [("id", Json.str "doc1")]]
    (by decide) (by decide) (by decide) rfl
  have hco : coerceDoc (Json.obj [("id", Json.str "doc1")])
      = some (Snippet.mk (.str "doc1") (.str "") (.str "") (.arr []) (.str "")) := by
    simp [coerceDoc, jsonGetD, pyOr, Json.truthy, pySlice600, String.take_eq,
      List.lookup]
  have hfields := happ.2 (Json.obj [("id", Json.str "doc1")]) (by simp)
    [("id", Json.str "doc1")] rfl
    (Snippet.mk (.str "doc1") (.str "") (.str "") (.arr []) (.str "")) hco
  ⟨happ.1, hfields.1 rfl, hfields.2.1 rfl, hfields.2.2 rfl⟩

/-! ## Claims about the enrichment client -/

/-- Claim C3: when the chat call succeeds and its content decodes to a
JSON object, `aoai_chat` exposes that object without any failure signal,
and the display coercion substitutes an empty list for a missing
`missions` key — and likewise empty defaults for any of the other three
keys that are absent. -/
theorem enrich_missing_keys_defaulted (cfg : AoaiConfig)
    (messages : List Json) (body : Json) (loads : String → Option Json)
    (content : String) (kvs : List (String × Json))
    (he : cfg.endpoint ≠ "") (hk : cfg.key ≠ "") (hd : cfg.deployment ≠ "")
    (hc : extractContent body = some content)
    (hl : loads content = some (.obj kvs))
    (hm : List.lookup "missions" kvs = none) :
    (aoai_chat cfg messages (.success body) loads).result = some (.obj kvs) ∧
    (aoai_chat cfg messages (.success body) loads).signals = [] ∧
    (exposeEnrichment kvs).missions = .arr [] ∧
    (List.lookup "summary" kvs = none →
      (exposeEnrichment kvs).summary = .str "") ∧
    (List.lookup "focus_phrases" kvs = none →
      (exposeEnrichment kvs).focus_phrases = .arr []) ∧
    (List.lookup "parent_tips" kvs = none →
      (exposeEnrichment kvs).parent_tips = .arr []) := by
  refine ⟨?_, ?_, ?_, fun h => ?_, fun h => ?_, fun h => ?_⟩
  · simp [aoai_chat, he, hk, hd, hc, hl]
  · simp [aoai_chat, he, hk, hd, hc, hl]
  · simp [exposeEnrichment, jsonGetD, hm]
  · simp [exposeEnrichment, jsonGetD, h]
  · simp [exposeEnrichment, jsonGetD, h]
  · simp [exposeEnrichment, jsonGetD, h]

/-- Witness for C3: a well-shaped chat response whose content decodes to
an object with none of the four keys. -/
theorem enrich_missing_keys_defaulted_witness :
    (aoai_chat (AoaiConfig.mk "e" "k" "d") []
        (.success (.obj [("choices", Json.arr
          [Json.obj [("message", Json.obj [("content", Json.str "x")])]])]))
        (fun _ => some (.obj []))).result = some (.obj []) ∧
    (exposeEnrichment []).missions = Json.arr [] ∧
    (exposeEnrichment []).summary = Json.str "" :=
  have happ := enrich_missing_keys_defaulted (AoaiConfig.mk "e" "k" "d") []
    (.obj [("choices", Json.arr
      [Json.obj [("message", Json.obj [("content", Json.str "x")])]])])
    (fun _ => some (.obj [])) "x" []
    (by decide) (by decide) (by decide) rfl rfl rfl
  ⟨happ.1, happ.2.2.1, happ.2.2.2.1 rfl⟩

/-! ## Claims about the planner -/

/-- Claim C1: for every `sessionsPerWeek` in `[1, 14]` and any age, level,
character and minutes, the plan has exactly `sessionsPerWeek` activities,
the i-th activity day is the 7-day cycle starting Monday at index
`i mod 7`, and its type is the 4-category cycle at index `i mod 4`. -/
theorem planner_cycle_structure (age : Nat) (level character : String)
    (s m : Nat) (h1 : 1 ≤ s) (h2 : s ≤ 14) :
    (rule_based_plan age level character s m).activities.length = s ∧
    ∀ i, i < s →
      (rule_based_plan age level character s m).activities[i]?.map Activity.day
          = some (DAYS.getD (i % 7) "") ∧
      (rule_based_plan age level character s m).activities[i]?.map Activity.type
          = some (TYPES.getD (i % 4) "") := by
  refine ⟨by simp [rule_based_plan], fun i hi => ⟨?_, ?_⟩⟩ <;>
    simp [rule_based_plan, List.getElem?_map, List.getElem?_range, hi]

/-- Witness for C1 at the spec example `sessionsPerWeek = 9`:
`activities[7]` wraps around to Monday and `activities[4]` back to
listening. -/
theorem planner_cycle_structure_witness :
    (1 ≤ 9 ∧ 9 ≤ 14) ∧
    (rule_based_plan 7 "A1" "Bluey" 9 15).activities.length = 9 ∧
    (rule_based_plan 7 "A1" "Bluey" 9 15).activities[7]?.map Activity.day
        = some (DAYS.getD (7 % 7) "") ∧
    (rule_based_plan 7 "A1" "Bluey" 9 15).activities[4]?.map Activity.type
        = some (TYPES.getD (4 % 4) "") :=
  ⟨⟨by decide, by decide⟩,
    (planner_cycle_structure 7 "A1" "Bluey" 9 15 (by decide) (by decide)).1,
    ((planner_cycle_structure 7 "A1" "Bluey" 9 15 (by decide) (by decide)).2
      7 (by decide)).1,
    ((planner_cycle_structure 7 "A1" "Bluey" 9 15 (by decide) (by decide)).2
      4 (by decide)).2⟩

/-- Claim C4: `age` never influences the plan — two calls differing only
in age give identical plans. -/
theorem planner_age_irrelevant (age₁ age₂ : Nat) (level character : String)
    (s m : Nat) :
    rule_based_plan age₁ level character s m
      = rule_based_plan age₂ level character s m := rfl

/-- Claim C5: an unrecognized level tag resolves to the A1 phrase bank in
every activity. -/
theorem planner_unknown_level_falls_back_to_A1 (age : Nat)
    (level character : String) (s m : Nat)
    (h0 : level ≠ "A0") (h1 : level ≠ "A1") (h2 : level ≠ "A2")
    (h3 : level ≠ "B1") :
    ∀ act ∈ (rule_based_plan age level character s m).activities,
      act.focus_phrases = ["Can I ...?", "I want ...", "It\x27s my turn."] := by
  intro act hact
  simp only [rule_based_plan, List.mem_map, List.mem_range] at hact
  obtain ⟨i, hi, rfl⟩ := hact
  have e0 : (level == "A0") = false := beq_eq_false_iff_ne.mpr h0
  have e1 : (level == "A1") = false := beq_eq_false_iff_ne.mpr h1
  have e2 : (level == "A2") = false := beq_eq_false_iff_ne.mpr h2
  have e3 : (level == "B1") = false := beq_eq_false_iff_ne.mpr h3
  simp [focus_bank, List.lookup, e0, e1, e2, e3]

/-- Witness for C5 at `level = "ZZ"`. -/
theorem planner_unknown_level_falls_back_to_A1_witness :
    ("ZZ" ≠ "A0" ∧ "ZZ" ≠ "A1" ∧ "ZZ" ≠ "A2" ∧ "ZZ" ≠ "B1") ∧
    (Activity.mk "Mon" "듣기" "Bluey clip/read"
        ["Can I ...?", "I want ...", "It\x27s my turn."] MISSIONS).focus_phrases
      = ["Can I ...?", "I want ...", "It\x27s my turn."] :=
  ⟨⟨by decide, by decide, by decide, by decide⟩,
    planner_unknown_level_falls_back_to_A1 7 "ZZ" "Bluey" 4 15
      (by decide) (by decide) (by decide) (by decide)
      (Activity.mk "Mon" "듣기" "Bluey clip/read"
        ["Can I ...?", "I want ...", "It\x27s my turn."] MISSIONS)
      (by decide)⟩

/-- Claim C6: the concrete plan for `(7, "A1", "Bluey", 4, 15)` has
`weekly_goals` containing `"4"` and `"15"`, `time_per_day = 15`, and the
A1 phrase list in every activity. -/
theorem planner_concrete_example :
    (rule_based_plan 7 "A1" "Bluey" 4 15).time_per_day = 15 ∧
    List.IsInfix "4".toList
      (rule_based_plan 7 "A1" "Bluey" 4 15).weekly_goals.toList ∧
    List.IsInfix "15".toList
      (rule_based_plan 7 "A1" "Bluey" 4 15).weekly_goals.toList ∧
    (rule_based_plan 7 "A1" "Bluey" 4 15).activities.map Activity.focus_phrases
      = List.replicate 4 ["Can I ...?", "I want ...", "It\x27s my turn."] := by
  decide

/-- Claim C7: every activity carries exactly the fixed three-mission list,
and the planner is deterministic — equal inputs give equal outputs (the
embedding is a pure function of its five arguments; the source reads no
clock, randomness or mutable state inside `rule_based_plan`). -/
theorem planner_fixed_missions_and_pure (age : Nat)
    (level character : String) (s m : Nat) :
    (∀ act ∈ (rule_based_plan age level character s m).activities,
        act.missions = ["표현 스티커 찾기", "섀도잉 2회", "가정 대화 1회 사용"]) ∧
    ∀ age₂ level₂ character₂ s₂ m₂, age = age₂ → level = level₂ →
      character = character₂ → s = s₂ → m = m₂ →
      rule_based_plan age level character s m
        = rule_based_plan age₂ level₂ character₂ s₂ m₂ := by
  constructor
  · intro act hact
    simp only [rule_based_plan, List.mem_map, List.mem_range] at hact
    obtain ⟨i, hi, rfl⟩ := hact
    rfl
  · intro age₂ level₂ character₂ s₂ m₂ ha hl hc hs hm
    subst ha hl hc hs hm
    rfl

/-- Witness for C7 at `(7, "A1", "Bluey", 4, 15)` and its first activity. -/
theorem planner_fixed_missions_and_pure_witness :
    (Activity.mk "Mon" "듣기" "Bluey clip/read"
        ["Can I ...?", "I want ...", "It\x27s my turn."] MISSIONS).missions
      = ["표현 스티커 찾기", "섀도잉 2회", "가정 대화 1회 사용"] ∧
    rule_based_plan 7 "A1" "Bluey" 4 15 = rule_based_plan 7 "A1" "Bluey" 4 15 :=
  ⟨(planner_fixed_missions_and_pure 7 "A1" "Bluey" 4 15).1
      (Activity.mk "Mon" "듣기" "Bluey clip/read"
        ["Can I ...?", "I want ...", "It\x27s my turn."] MISSIONS) (by decide),
    (planner_fixed_missions_and_pure 7 "A1" "Bluey" 4 15).2
      7 "A1" "Bluey" 4 15 rfl rfl rfl rfl rfl⟩

/-! ## Claim about the JSON export -/

/-- Reading back a mapped list element for element recovers the list. -/
theorem traverseOption_map_eq_some {α β : Type} (f : α → β) (g : β → Option α)
    (h : ∀ x, g (f x) = some x) :
    ∀ xs : List α, traverseOption g (xs.map f) = some xs := by
  intro xs
  induction xs with
  | nil => rfl
  | cons x xs ih => simp [traverseOption, h, ih]

/-- Parsing an exported activity recovers the activity. -/
theorem activity_fromJson_toJson (a : Activity) :
    Activity.fromJson a.toJson = some a := by
  cases a
  simp [Activity.toJson, Activity.fromJson, Json.asStr, Json.asStrList,
    List.lookup, traverseOption_map_eq_some Json.str Json.asStr (fun _ => rfl)]

/-- Parsing an exported plan recovers the plan. -/
theorem weeklyPlan_fromJson_toJson (p : WeeklyPlan) :
    WeeklyPlan.fromJson p.toJson = some p := by
  cases p
  simp [WeeklyPlan.toJson, WeeklyPlan.fromJson, Json.asStr, Json.asNat,
    List.lookup,
    traverseOption_map_eq_some Activity.toJson Activity.fromJson
      activity_fromJson_toJson]

/-- Claim C9: exporting any plan produced by the planner to its JSON
document and parsing that document back yields the original plan — the
same fields, values and activity order. -/
theorem plan_json_roundtrip (age : Nat) (level character : String)
    (s m : Nat) :
    WeeklyPlan.fromJson (WeeklyPlan.toJson (rule_based_plan age level character s m))
      = some (rule_based_plan age level character s m) :=
  weeklyPlan_fromJson_toJson (rule_based_plan age level character s m)
